import Mathlib

/-!
# Verification of the network-geo-monitor connection-resolution pipeline

This file is a shallow embedding, in Lean 4, of the core logic of the
network connection monitor (`scripts/network_monitor.py` and
`scripts/simple_geo_db.py`): the normalized connection record and its
projections, the private-address classifier, the tiered geo resolver with
its caches and rate limiter, the home-country detector, and the Unix
netstat line parser.  Python strings are modelled as Lean `String`s (or
`List Char` where structural induction is needed), Python dicts as
association lists, wall-clock times as rationals, and each networked or
file-backed dependency as an explicit oracle parameter.  Theorems at the
end of the file settle the specified properties of the pipeline.
-/

/-! ## Basic string helpers (Python string operations) -/

/-- Python `sub in s` (substring test) on explicit character lists:
`hasPrefixChars p l` is true when `p` is an initial segment of `l`. -/
def hasPrefixChars : List Char → List Char → Bool
  | [], _ => true
  | _ :: _, [] => false
  | a :: as, b :: bs => a = b && hasPrefixChars as bs

/-- Python `sub in s`: some suffix of `l` starts with `sub`. -/
def hasSubstrChars (sub : List Char) : List Char → Bool
  | [] => hasPrefixChars sub []
  | c :: rest => hasPrefixChars sub (c :: rest) || hasSubstrChars sub rest

/-- Python `sub in s` at the `String` level. -/
def pyIn (sub s : String) : Bool :=
  hasSubstrChars sub.data s.data

/-- Value of a non-empty all-digit character list, as in Python `int`. -/
def digitsVal (l : List Char) : Option Nat :=
  if l ≠ [] ∧ l.all Char.isDigit then
    some (l.foldl (fun acc c => acc * 10 + (c.toNat - 48)) 0)
  else none

/-- Python `int(s)`: an optional sign followed by one or more decimal
digits (the exotic forms — underscores, surrounding whitespace — do not
occur in the inputs the monitor feeds to `int`). -/
def pyInt (s : String) : Option Int :=
  match s.data with
  | '-' :: rest => (digitsVal rest).map (fun n => -(n : Int))
  | '+' :: rest => (digitsVal rest).map (fun n => (n : Int))
  | l => (digitsVal l).map (fun n => (n : Int))

/-- Python `s.startswith(sub)`. -/
def pyStartsWith (s sub : String) : Bool :=
  hasPrefixChars sub.data s.data

/-- Python `s.upper()` (the monitor only upper-cases ASCII protocol and
state strings). -/
def pyUpper (s : String) : String :=
  String.mk (s.data.map Char.toUpper)

/-- Python `s.lower()`. -/
def pyLower (s : String) : String :=
  String.mk (s.data.map Char.toLower)

/-- Python `s.strip()`. -/
def pyStrip (s : String) : String :=
  String.mk (((s.data.dropWhile Char.isWhitespace).reverse.dropWhile Char.isWhitespace).reverse)

/-- Split a character list at every character satisfying `p`, keeping
empty fields: the semantics of Python `str.split(sep)` for a
single-character separator. -/
def splitChars (p : Char → Bool) : List Char → List (List Char)
  | [] => [[]]
  | c :: rest =>
    let r := splitChars p rest
    if p c then [] :: r else (c :: r.headD []) :: r.tail

/-- Python `s.split()` (split on whitespace runs, dropping empty fields). -/
def pySplit (s : String) : List String :=
  ((splitChars Char.isWhitespace s.data).filter (fun f => f ≠ [])).map String.mk

/-- Python `s.split(".")`. -/
def pySplitDot (s : String) : List String :=
  (splitChars (fun c => c = '.') s.data).map String.mk

/-! ## The connection record (`NetworkConnection` dataclass) -/

/-- `ConnectionType` enum from `network_monitor.py`. -/
inductive ConnectionType
  | TCP
  | UDP
deriving DecidableEq, Repr

/-- The `.value` of the `ConnectionType` enum member. -/
def ConnectionType.value : ConnectionType → String
  | .TCP => "tcp"
  | .UDP => "udp"

/-- The `NetworkConnection` dataclass of `network_monitor.py`. -/
structure NetworkConnection where
  protocol : String
  local_address : String
  foreign_address : String
  state : String
  pid : String
  city : String := ""
  country : String := ""
  asn : String := ""
deriving DecidableEq, Repr

/-- Characters of `s.split(sep)[0]` for a single-character separator:
everything before the first occurrence of `c`. -/
def takeUntil (c : Char) : List Char → List Char
  | [] => []
  | x :: xs => if x = c then [] else x :: takeUntil c xs

/-- Characters of `s.split("]:")[0]`: everything before the first
occurrence of the two-character separator `x, y`. -/
def takeUntilSeq (x y : Char) : List Char → List Char
  | [] => []
  | [a] => [a]
  | a :: b :: rest => if a = x ∧ b = y then [] else a :: takeUntilSeq x y (b :: rest)

/-- `NetworkConnection.foreign_ip` on the underlying character list:
if the address contains a colon, either unwrap a bracketed IPv6 literal
(`split("]:")[0][1:]`) or keep everything before the first colon
(`split(":")[0]`); otherwise return the address unchanged. -/
def foreignIpChars (fa : List Char) : List Char :=
  if ':' ∈ fa then
    if fa.head? = some '[' then (takeUntilSeq ']' ':' fa).drop 1
    else takeUntil ':' fa
  else fa

/-- The `foreign_ip` property of `NetworkConnection`. -/
def NetworkConnection.foreign_ip (c : NetworkConnection) : String :=
  String.mk (foreignIpChars c.foreign_address.data)

/-- `NetworkConnection.is_foreign`: the country must be non-empty, not a
sentinel, and differ from the local country. -/
def NetworkConnection.is_foreign (c : NetworkConnection) (local_country : String) : Bool :=
  if c.country = "" ∨ c.country ∈ ["", "Unknown", "Local Network", "Private"] then false
  else decide (c.country ≠ local_country)

/-- `NetworkConnection.is_listening`. -/
def NetworkConnection.is_listening (c : NetworkConnection) : Bool :=
  decide (pyUpper c.state ∈ ["LISTENING", "LISTEN"])

/-- `NetworkConnection.is_established`. -/
def NetworkConnection.is_established (c : NetworkConnection) : Bool :=
  decide (pyUpper c.state ∈ ["ESTABLISHED", "CLOSE_WAIT", "TIME_WAIT"])

/-- `NetworkConnection.is_uninteresting`: wildcard-peer UDP records,
loopback-to-loopback records, and unspecified foreign endpoints. -/
def NetworkConnection.is_uninteresting (c : NetworkConnection) : Bool :=
  (pyUpper c.protocol = "UDP" &&
    (pyStartsWith c.foreign_address "0.0.0.0:" ||
     pyStartsWith c.foreign_address "*:" ||
     c.foreign_address = "*:*" ||
     c.foreign_address = "0.0.0.0:0"))
  || (pyIn "127.0.0.1" c.local_address && pyIn "127.0.0.1" c.foreign_address)
  || decide (c.foreign_address ∈ ["0.0.0.0:0", "*:*", ":::0"])

/-- The per-cycle `established` summary counter of
`NetworkMonitor.display_connections_rich` /
`display_connections_simple`: `sum(1 for conn in connections if
conn.is_established())`. -/
def establishedCount (connections : List NetworkConnection) : Nat :=
  (connections.filter (fun c => c.is_established)).length

/-- Helper for building concrete connection records in examples. -/
def mkConn (proto la fa st pid : String) : NetworkConnection :=
  { protocol := proto, local_address := la, foreign_address := fa,
    state := st, pid := pid }

/-! ## Unix legacy (netstat) parser
(`CrossPlatformNetworkTools._get_unix_netstat_connections`) -/

/-- The header-skip test of the Unix netstat loop:
`line.startswith(('Active', 'Proto', 'tcp', 'udp'))`. -/
def unixNetstatHeaderSkip (line : String) : Bool :=
  pyStartsWith line "Active" || pyStartsWith line "Proto" ||
  pyStartsWith line "tcp" || pyStartsWith line "udp"

/-- One iteration of the Unix netstat parsing loop, before the listening
and noise filters: strip the line, skip empty and header-prefixed lines,
split on whitespace, require at least six columns and a first column equal
(case-insensitively) to the protocol value, and build the record
`Proto Recv-Q Send-Q Local-Address Foreign-Address State`. -/
def parseUnixNetstatLine (protocol : ConnectionType) (line : String) :
    Option NetworkConnection :=
  let l := pyStrip line
  if l = "" ∨ unixNetstatHeaderSkip l then none
  else
    let parts := pySplit l
    if 6 ≤ parts.length then
      if pyLower (parts.headD "") = protocol.value then
        some (mkConn (pyUpper (parts.headD "")) (parts.getD 3 "") (parts.getD 4 "")
          (if protocol = ConnectionType.TCP then parts.getD 5 "" else "") "")
      else none
    else none

/-- The full parsing loop of `_get_unix_netstat_connections` over the
lines of netstat output, applying the listening filter (when requested)
and the mandatory noise filter. -/
def getUnixNetstatConnections (protocol : ConnectionType)
    (filterListening : Bool) (lines : List String) : List NetworkConnection :=
  lines.filterMap (fun line =>
    match parseUnixNetstatLine protocol line with
    | none => none
    | some conn =>
      if filterListening && conn.is_listening then none
      else if conn.is_uninteresting then none
      else some conn)

/-! ## Private/local address classifier (`GeoIPLookup._is_private_ip`) -/

/-- `GeoIPLookup._is_private_ip`: IPv6 addresses (anything containing a
colon) are private iff they start with `::1`, `fe80:` or `fc00:`; IPv4
dotted quads are private for 10/8, 172.16/12, 192.168/16 and 127/8; any
parse failure yields `False`. -/
def GeoIPLookup.is_private_ip (ip : String) : Bool :=
  if ':' ∈ ip.data then
    pyStartsWith ip "::1" || pyStartsWith ip "fe80:" || pyStartsWith ip "fc00:"
  else
    match (pySplitDot ip).mapM pyInt with
    | none => false
    | some parts =>
      if parts.length ≠ 4 then false
      else
        let p0 := parts.getD 0 0
        let p1 := parts.getD 1 0
        if p0 = 10 then true
        else if p0 = 172 ∧ 16 ≤ p1 ∧ p1 ≤ 31 then true
        else if p0 = 192 ∧ p1 = 168 then true
        else if p0 = 127 then true
        else false

/-! ## Static range table (`SimpleGeoDatabase` in `simple_geo_db.py`) -/

/-- One entry of `SimpleGeoDatabase.ip_ranges` (the `stop` field is the
dictionary key `end`, a reserved word in Lean). -/
structure GeoRange where
  start : String
  stop : String
  country : String
  city : String
  org : String
deriving DecidableEq, Repr

/-- Strict parser for `ipaddress.IPv4Address` octets: one to three
decimal digits, no leading zero unless the octet is `0`, value at most
255. -/
def parseOctet (s : String) : Option Nat :=
  let l := s.data
  if l = [] ∨ ¬ l.all Char.isDigit ∨ 3 < l.length then none
  else if 1 < l.length ∧ l.headD '0' = '0' then none
  else
    let n := l.foldl (fun acc c => acc * 10 + (c.toNat - 48)) 0
    if n ≤ 255 then some n else none

/-- `int(ipaddress.IPv4Address(s))`: exactly four dot-separated strict
octets, combined big-endian; `none` models the `AddressValueError` /
`ValueError` that `SimpleGeoDatabase.lookup` catches. -/
def parseIPv4 (s : String) : Option Nat :=
  match pySplitDot s with
  | [a, b, c, d] =>
    match parseOctet a, parseOctet b, parseOctet c, parseOctet d with
    | some x, some y, some z, some w => some (((x * 256 + y) * 256 + z) * 256 + w)
    | _, _, _, _ => none
  | _ => none

/-- The curated range table loaded by `SimpleGeoDatabase._load_data`. -/
def ipRanges : List GeoRange := [
  ⟨"8.8.8.0", "8.8.8.255", "United States", "Mountain View", "Google LLC"⟩,
  ⟨"8.8.4.0", "8.8.4.255", "United States", "Mountain View", "Google LLC"⟩,
  ⟨"142.250.0.0", "142.251.255.255", "United States", "Mountain View", "Google LLC"⟩,
  ⟨"172.217.0.0", "172.217.255.255", "United States", "Mountain View", "Google LLC"⟩,
  ⟨"216.58.192.0", "216.58.223.255", "United States", "Mountain View", "Google LLC"⟩,
  ⟨"1.1.1.0", "1.1.1.255", "United States", "San Francisco", "Cloudflare Inc"⟩,
  ⟨"1.0.0.0", "1.0.0.255", "United States", "San Francisco", "Cloudflare Inc"⟩,
  ⟨"104.16.0.0", "104.31.255.255", "United States", "San Francisco", "Cloudflare Inc"⟩,
  ⟨"52.0.0.0", "52.255.255.255", "United States", "Seattle", "Amazon.com Inc"⟩,
  ⟨"54.0.0.0", "54.255.255.255", "United States", "Seattle", "Amazon.com Inc"⟩,
  ⟨"13.32.0.0", "13.35.255.255", "United States", "Seattle", "Amazon CloudFront"⟩,
  ⟨"13.64.0.0", "13.107.255.255", "United States", "Redmond", "Microsoft Corporation"⟩,
  ⟨"20.0.0.0", "20.255.255.255", "United States", "Redmond", "Microsoft Corporation"⟩,
  ⟨"40.0.0.0", "40.255.255.255", "United States", "Redmond", "Microsoft Corporation"⟩,
  ⟨"31.13.24.0", "31.13.127.255", "United States", "Menlo Park", "Meta Platforms Inc"⟩,
  ⟨"157.240.0.0", "157.240.255.255", "United States", "Menlo Park", "Meta Platforms Inc"⟩,
  ⟨"173.252.64.0", "173.252.127.255", "United States", "Menlo Park", "Meta Platforms Inc"⟩,
  ⟨"140.82.112.0", "140.82.127.255", "United States", "San Francisco", "GitHub Inc"⟩,
  ⟨"185.199.108.0", "185.199.111.255", "United States", "San Francisco", "GitHub Inc"⟩,
  ⟨"46.4.0.0", "46.4.255.255", "Germany", "Falkenstein", "Hetzner Online GmbH"⟩,
  ⟨"78.46.0.0", "78.47.255.255", "Germany", "Falkenstein", "Hetzner Online GmbH"⟩,
  ⟨"88.99.0.0", "88.99.255.255", "Germany", "Falkenstein", "Hetzner Online GmbH"⟩,
  ⟨"104.131.0.0", "104.131.255.255", "United States", "New York", "DigitalOcean LLC"⟩,
  ⟨"159.89.0.0", "159.89.255.255", "United States", "New York", "DigitalOcean LLC"⟩,
  ⟨"185.70.40.0", "185.70.43.255", "Netherlands", "Amsterdam", "DigitalOcean LLC"⟩,
  ⟨"51.68.0.0", "51.68.255.255", "France", "Roubaix", "OVH SAS"⟩,
  ⟨"54.36.0.0", "54.39.255.255", "France", "Roubaix", "OVH SAS"⟩,
  ⟨"45.33.0.0", "45.33.255.255", "United States", "Fremont", "Linode LLC"⟩,
  ⟨"50.116.0.0", "50.116.255.255", "United States", "Fremont", "Linode LLC"⟩,
  ⟨"208.67.222.0", "208.67.222.255", "United States", "San Francisco", "OpenDNS"⟩,
  ⟨"208.67.220.0", "208.67.220.255", "United States", "San Francisco", "OpenDNS"⟩,
  ⟨"9.9.9.0", "9.9.9.255", "United States", "Berkeley", "Quad9 DNS"⟩,
  ⟨"149.112.112.0", "149.112.112.255", "United States", "Berkeley", "Quad9 DNS"⟩]

/-- Interval-containment test of the lookup loop
(`start_int <= ip_int <= end_int`). -/
def GeoRange.containsIp (r : GeoRange) (n : Nat) : Bool :=
  decide ((parseIPv4 r.start).getD 0 ≤ n ∧ n ≤ (parseIPv4 r.stop).getD 0)

/-- `SimpleGeoDatabase.lookup`: parse the address as IPv4 (any parse
error is caught and yields the unknown triple), scan the range list in
order, and return the first containing interval's attribution. -/
def SimpleGeoDatabase.lookup (ip : String) : String × String × String :=
  match parseIPv4 ip with
  | none => ("", "Unknown", "")
  | some n =>
    match ipRanges.find? (fun r => r.containsIp n) with
    | some r => (r.city, r.country, r.org)
    | none => ("", "Unknown", "")

/-! ## The tiered geo resolver (`GeoIPLookup`)

The resolver's mutable state (two caches and the rate-limit tracker) is
made explicit; wall-clock instants (`datetime.now()`) are rationals; the
MaxMind readers, the built-in database and the online `_online_lookup`
call are oracles, since their answers come from files or the network.
The result of `lookup` is instrumented with the list of tiers the call
consulted. -/

/-- A persistent-cache entry (`_cache_result`'s `result_data` dict). -/
structure CacheEntry where
  city : String
  country : String
  asn : String
  timestamp : Rat
deriving DecidableEq, Repr

/-- Association-list lookup, mirroring Python dict indexing. -/
def lookupAssoc {β : Type} : List (String × β) → String → Option β
  | [], _ => none
  | p :: rest, k => if p.1 = k then some p.2 else lookupAssoc rest k

/-- Association-list update, mirroring Python dict assignment (replace in
place, or append a fresh key). -/
def updateAssoc {β : Type} : List (String × β) → String → β → List (String × β)
  | [], k, v => [(k, v)]
  | p :: rest, k, v =>
    if p.1 = k then (k, v) :: rest else p :: updateAssoc rest k v

/-- The mutable state of a `GeoIPLookup` instance: the disk-backed
`persistent_cache`, the runtime `online_cache`, and the
`last_online_lookup` rate-limit tracker. -/
structure GeoState where
  persistentCache : List (String × CacheEntry)
  onlineCache : List (String × (String × String × String))
  lastOnlineLookup : List (String × Rat)
deriving DecidableEq, Repr

/-- The immutable environment of a `GeoIPLookup` instance.  `maxmind` is
`some f` when both `city_reader` and `asn_reader` were initialized, with
`f ip = none` modelling `AddressNotFoundError` or any other reader
exception; `simpleDb` likewise models the built-in database tier;
`onlineEnabled` is `REQUESTS_AVAILABLE and self.use_online`;
`onlineLookup` is the (network-dependent, exception-free) result of
`_online_lookup`. -/
structure GeoEnv where
  maxmind : Option (String → Option (String × String × String))
  simpleDb : Option (String → Option (String × String × String))
  onlineEnabled : Bool
  onlineLookup : String → String × String × String
  onlineDelay : Rat

/-- The attribution tiers a `lookup` call may consult. -/
inductive Tier
  | maxmind
  | simpleDb
  | online
deriving DecidableEq, Repr

/-- The literal addresses short-circuited at the top of
`GeoIPLookup.lookup`. -/
def specialIps : List String := ["0.0.0.0", "127.0.0.1", "::1", "*", "0.0.0.0:0"]

/-- `GeoIPLookup._cache_result`: write the triple to the runtime cache
and a timestamped entry to the persistent cache (the periodic
`_save_cache` is disk I/O and does not change the in-memory state). -/
def GeoIPLookup.cache_result (st : GeoState) (ip : String) (now : Rat)
    (city country asn : String) : GeoState :=
  { st with
    onlineCache := updateAssoc st.onlineCache ip (city, country, asn),
    persistentCache := updateAssoc st.persistentCache ip ⟨city, country, asn, now⟩ }

/-- The MaxMind tier body: attempted only when both readers exist, and
its answer is kept only when the country is non-empty (`if country:`). -/
def mmTry (env : GeoEnv) (ip : String) : Option (String × String × String) :=
  match env.maxmind with
  | none => none
  | some f =>
    match f ip with
    | none => none
    | some (city, country, asn) =>
      if country = "" then none else some (city, country, asn)

/-- The built-in database tier body: kept only when
`country and country != "Unknown"`. -/
def sdTry (env : GeoEnv) (ip : String) : Option (String × String × String) :=
  match env.simpleDb with
  | none => none
  | some f =>
    match f ip with
    | none => none
    | some (city, country, asn) =>
      if country = "" ∨ country = "Unknown" then none
      else some (city, country, asn)

/-- Recording the attempt time of the online tier:
`self.last_online_lookup[ip_address] = now`. -/
def recordOnlineAttempt (st : GeoState) (ip : String) (now : Rat) : GeoState :=
  { st with lastOnlineLookup := updateAssoc st.lastOnlineLookup ip now }

/-- The body of the online tier once the rate limiter has allowed the
request: perform `_online_lookup`, record the attempt time, and cache and
return the result only when its country differs from `"Unknown"`. -/
def onlineTier (env : GeoEnv) (now : Rat) (st : GeoState) (ip : String)
    (consulted : List Tier) : (String × String × String) × GeoState × List Tier :=
  if (env.onlineLookup ip).2.1 = "Unknown" then
    (("", "Unknown", ""), recordOnlineAttempt st ip now, consulted ++ [Tier.online])
  else
    ((env.onlineLookup ip),
     GeoIPLookup.cache_result (recordOnlineAttempt st ip now) ip now
       (env.onlineLookup ip).1 (env.onlineLookup ip).2.1 (env.onlineLookup ip).2.2,
     consulted ++ [Tier.online])

/-- The tiers consulted when both local tiers (methods 1 and 2) were
attempted and declined. -/
def consultedLocal (env : GeoEnv) : List Tier :=
  (if env.maxmind.isSome then [Tier.maxmind] else []) ++
  (if env.simpleDb.isSome then [Tier.simpleDb] else [])

/-- The tier chain of `GeoIPLookup.lookup` (methods 1-4), entered after
the special-address, private-address and cache checks all declined. -/
def geoLookupTiers (env : GeoEnv) (now : Rat) (st : GeoState) (ip : String) :
    (String × String × String) × GeoState × List Tier :=
  match mmTry env ip with
  | some r => (r, GeoIPLookup.cache_result st ip now r.1 r.2.1 r.2.2,
               if env.maxmind.isSome then [Tier.maxmind] else [])
  | none =>
    match sdTry env ip with
    | some r => (r, GeoIPLookup.cache_result st ip now r.1 r.2.1 r.2.2, consultedLocal env)
    | none =>
      if env.onlineEnabled then
        match lookupAssoc st.lastOnlineLookup ip with
        | some last =>
          if now - last < env.onlineDelay then
            (("", "Unknown", ""), st, consultedLocal env)
          else onlineTier env now st ip (consultedLocal env)
        | none => onlineTier env now st ip (consultedLocal env)
      else (("", "Unknown", ""), st, consultedLocal env)

/-- `GeoIPLookup.lookup`: the special-address check, the private-address
short-circuit, the persistent- and runtime-cache reads, then the tier
chain.  Returns the attribution triple, the successor state, and the
tiers consulted. -/
def GeoIPLookup.lookup (env : GeoEnv) (now : Rat) (st : GeoState) (ip : String) :
    (String × String × String) × GeoState × List Tier :=
  if ip = "" ∨ ip ∈ specialIps then (("", "", ""), st, [])
  else if GeoIPLookup.is_private_ip ip then (("", "Private", "Local Network"), st, [])
  else
    match lookupAssoc st.persistentCache ip with
    | some e => ((e.city, e.country, e.asn), st, [])
    | none =>
      match lookupAssoc st.onlineCache ip with
      | some t => (t, st, [])
      | none => geoLookupTiers env now st ip

/-! ## Home country detector (`CountryDetector`) -/

/-- The mutable attributes of a `CountryDetector` instance. -/
structure CountryDetector where
  defaultCountry : String
  detectedCountry : Option String
  publicIp : Option String
  detectionMethod : Option String
deriving DecidableEq, Repr

/-- The sentinel countries rejected by both detection methods. -/
def countrySentinels : List String := ["Unknown", "Local Network", "Private", "Europe", "Asia"]

/-- `CountryDetector.detect_country`.  `geoipLookup` is the resolver
passed at construction (`none` when absent); `publicIpResult` is the
outcome of `_get_public_ip` (`none` when every echo service failed or
`requests` is unavailable); `countryOnlineResult` is the outcome of
`_get_country_online` (`none` likewise).  Returns the country and the
updated detector state. -/
def CountryDetector.detect_country (cd : CountryDetector)
    (geoipLookup : Option (String → String × String × String))
    (publicIpResult : Option String) (countryOnlineResult : Option String) :
    String × CountryDetector :=
  if cd.detectedCountry.getD "" ≠ "" then (cd.detectedCountry.getD "", cd)
  else
    let m1 : Option (String × String) :=
      match publicIpResult, geoipLookup with
      | some ip, some f =>
        if ip ≠ "" then
          let country := (f ip).2.1
          if country ≠ "" ∧ country ∉ countrySentinels then some (country, ip) else none
        else none
      | _, _ => none
    match m1 with
    | some (country, ip) =>
      (country, { cd with detectedCountry := some country, publicIp := some ip,
                          detectionMethod := some "auto-detected" })
    | none =>
      let m2 : Option String :=
        match countryOnlineResult with
        | some country =>
          if country ≠ "" ∧ country ∉ countrySentinels then some country else none
        | none => none
      match m2 with
      | some country =>
        (country, { cd with detectedCountry := some country,
                            detectionMethod := some "auto-detected" })
      | none =>
        (cd.defaultCountry, { cd with detectedCountry := some cd.defaultCountry,
                                      detectionMethod := some "default" })

/-! ## Concrete instances used in examples -/

/-- A fresh resolver state: empty caches, empty rate-limit tracker. -/
def emptyGeoState : GeoState := ⟨[], [], []⟩

/-- Environment with no MaxMind readers, no built-in database and online
lookups disabled (`--no-online` with neither database present). -/
def envLocalOnly : GeoEnv := ⟨none, none, false, fun _ => ("", "Unknown", ""), 1⟩

/-- Environment with only the MaxMind tier, whose databases attribute
every address to Google in Mountain View. -/
def envMaxmindOnly : GeoEnv :=
  ⟨some (fun _ => some ("Mountain View", "United States", "Google LLC")), none, false,
   fun _ => ("", "Unknown", ""), 1⟩

/-- Environment with only the online tier, whose services return a city
but an empty country (e.g. an ipinfo.io success response whose JSON has
no country field). -/
def envOnlineEmptyCountry : GeoEnv :=
  ⟨none, none, true, fun _ => ("Nowhere", "", ""), 1⟩

/-- Environment with only the online tier, whose services decline every
address (`_online_lookup` falls through to its final
`return "", "Unknown", ""`). -/
def envOnlineUnknown : GeoEnv :=
  ⟨none, none, true, fun _ => ("", "Unknown", ""), 1⟩

/-- A fresh country detector configured with the default country
"United States". -/
def freshDetector : CountryDetector := ⟨"United States", none, none, none⟩

/-! ## Helper lemmas -/

theorem lookupAssoc_updateAssoc {β : Type} (l : List (String × β)) (k k' : String) (v : β) :
    lookupAssoc (updateAssoc l k v) k' = if k' = k then some v else lookupAssoc l k' := by
  induction l with
  | nil =>
    simp only [updateAssoc, lookupAssoc]
    by_cases h : k' = k
    · rw [if_pos (h.symm), if_pos h]
    · rw [if_neg (fun hh : k = k' => h hh.symm), if_neg h]
  | cons p rest ih =>
    simp only [updateAssoc]
    by_cases h1 : p.1 = k
    · rw [if_pos h1]
      by_cases h2 : k' = k
      · subst h2
        simp [lookupAssoc]
      · simp only [lookupAssoc]
        rw [if_neg (fun hh : k = k' => h2 hh.symm), if_neg h2,
          if_neg (fun hh : p.1 = k' => h2 (h1.symm.trans hh).symm)]
    · rw [if_neg h1]
      simp only [lookupAssoc, ih]
      by_cases h3 : p.1 = k'
      · rw [if_pos h3, if_neg (fun hh : k' = k => h1 (h3.trans hh)), if_pos h3]
      · by_cases h2 : k' = k
        · rw [if_neg h3, if_pos h2, if_pos h2]
        · rw [if_neg h3, if_neg h2, if_neg h2, if_neg h3]

theorem lookupAssoc_updateAssoc_self {β : Type} (l : List (String × β)) (k : String) (v : β) :
    lookupAssoc (updateAssoc l k v) k = some v := by
  rw [lookupAssoc_updateAssoc]
  simp

/-! ## C5: foreign classification -/

/-- C5: a record is foreign iff its country is non-empty, not one of the
sentinels `""`, `"Unknown"`, `"Local Network"`, `"Private"`, and differs
from the home country by exact string comparison; a record with country
"Germany" against home country "United States" is foreign, and a record
with empty country is never foreign. -/
theorem is_foreign_spec :
    (∀ (c : NetworkConnection) (home : String),
      c.is_foreign home = true ↔
        c.country ≠ "" ∧ c.country ∉ ["", "Unknown", "Local Network", "Private"] ∧
          c.country ≠ home) ∧
    ({ mkConn "TCP" "10.0.0.2:55" "46.4.84.25:443" "ESTABLISHED" "" with
        country := "Germany" }).is_foreign "United States" = true ∧
    (∀ home : String,
      ({ mkConn "TCP" "10.0.0.2:55" "46.4.84.25:443" "ESTABLISHED" "" with
          country := "" }).is_foreign home = false) := by
  refine ⟨fun c home => ?_, by decide, fun home => ?_⟩
  · unfold NetworkConnection.is_foreign
    by_cases h : c.country = "" ∨ c.country ∈ ["", "Unknown", "Local Network", "Private"]
    · simp [h]
      tauto
    · simp [h]
      tauto
  · simp [NetworkConnection.is_foreign, mkConn]

/-! ## C9: the established counter -/

/-- C9: the per-cycle `established` summary counter counts exactly the
records whose upper-cased state is ESTABLISHED, CLOSE_WAIT or TIME_WAIT;
in particular CLOSE_WAIT and TIME_WAIT records are counted. -/
theorem established_count_spec :
    (∀ connections : List NetworkConnection,
      establishedCount connections =
        (connections.filter (fun c =>
          decide (pyUpper c.state = "ESTABLISHED" ∨ pyUpper c.state = "CLOSE_WAIT" ∨
            pyUpper c.state = "TIME_WAIT"))).length) ∧
    (∀ c : NetworkConnection,
      c.is_established = true ↔
        (pyUpper c.state = "ESTABLISHED" ∨ pyUpper c.state = "CLOSE_WAIT" ∨
          pyUpper c.state = "TIME_WAIT")) ∧
    establishedCount
      [mkConn "TCP" "a" "b" "CLOSE_WAIT" "", mkConn "TCP" "a" "b" "TIME_WAIT" "",
       mkConn "TCP" "a" "b" "LISTEN" ""] = 2 := by
  refine ⟨fun connections => ?_, fun c => ?_, by decide⟩
  · unfold establishedCount
    refine congrArg List.length (List.filter_congr ?_)
    intro c _
    simp [NetworkConnection.is_established]
  · simp [NetworkConnection.is_established]

/-! ## C6: address-only projection of the remote endpoint -/

theorem takeUntil_append (c : Char) (a b : List Char) (h : c ∉ a) :
    takeUntil c (a ++ c :: b) = a := by
  induction a with
  | nil => simp [takeUntil]
  | cons x xs ih =>
    have hx : x ≠ c := fun hh => h (hh ▸ List.mem_cons_self x xs)
    simp only [List.cons_append, takeUntil, List.append_eq]
    rw [if_neg hx]
    have := ih (fun hm => h (List.mem_cons_of_mem x hm))
    simp only [List.append_eq] at this ⊢
    rw [this]

theorem takeUntilSeq_append (x y : Char) (pre rest : List Char) (h : x ∉ pre) :
    takeUntilSeq x y (pre ++ x :: y :: rest) = pre := by
  induction pre with
  | nil => simp [takeUntilSeq]
  | cons a as ih =>
    have ha : a ≠ x := fun hh => h (hh ▸ List.mem_cons_self a as)
    have has : x ∉ as := fun hm => h (List.mem_cons_of_mem a hm)
    cases as with
    | nil =>
      show takeUntilSeq x y (a :: x :: y :: rest) = [a]
      simp only [takeUntilSeq]
      rw [if_neg (fun hh => ha hh.1)]
      simp
    | cons b bs =>
      show takeUntilSeq x y (a :: b :: (bs ++ x :: y :: rest)) = a :: b :: bs
      have hrec := ih has
      rw [List.cons_append] at hrec
      rw [takeUntilSeq, if_neg (fun hh => ha hh.1), hrec]

/-- C6: for a two-column `address:port` remote endpoint, `foreign_ip`
strips exactly the trailing `:port`; a bracketed IPv6 literal
`[addr]:port` is unwrapped to `addr`; in particular `"[::1]:80"`
projects to `"::1"` and `"192.168.1.1:80"` to `"192.168.1.1"`. -/
theorem foreign_ip_spec :
    (∀ (c : NetworkConnection) (a p : List Char),
      c.foreign_address = String.mk (a ++ ':' :: p) → ':' ∉ a → a.head? ≠ some '[' →
      c.foreign_ip = String.mk a) ∧
    (∀ (c : NetworkConnection) (a p : List Char),
      c.foreign_address = String.mk ('[' :: a ++ ']' :: ':' :: p) → ']' ∉ a →
      c.foreign_ip = String.mk a) ∧
    (mkConn "TCP" "10.0.0.2:99" "[::1]:80" "ESTABLISHED" "").foreign_ip = "::1" ∧
    (mkConn "TCP" "10.0.0.2:99" "192.168.1.1:80" "ESTABLISHED" "").foreign_ip = "192.168.1.1" := by
  refine ⟨fun c a p hfa hcolon hbrack => ?_, fun c a p hfa hbrack => ?_, by decide, by decide⟩
  · unfold NetworkConnection.foreign_ip foreignIpChars
    rw [hfa]
    have hdata : (String.mk (a ++ ':' :: p)).data = a ++ ':' :: p := rfl
    rw [hdata, if_pos (by simp), if_neg ?_, takeUntil_append _ _ _ hcolon]
    cases a with
    | nil => simp
    | cons u us =>
      intro hh
      simp only [List.cons_append, List.head?] at hh
      exact hbrack (by simp [List.head?, Option.some.inj hh])
  · unfold NetworkConnection.foreign_ip foreignIpChars
    rw [hfa]
    have hdata : (String.mk ('[' :: a ++ ']' :: ':' :: p)).data = '[' :: a ++ ']' :: ':' :: p := rfl
    rw [hdata, if_pos (by simp), if_pos (by simp)]
    have hpre : ']' ∉ '[' :: a := by
      intro hm
      rcases List.mem_cons.mp hm with h1 | h2
      · exact absurd h1 (by decide)
      · exact hbrack h2
    have : ('[' :: a) ++ ']' :: ':' :: p = '[' :: a ++ ']' :: ':' :: p := rfl
    rw [← this, takeUntilSeq_append _ _ _ _ hpre]
    simp

/-- Closed instance of `foreign_ip_spec`: both universally quantified
parts applied at concrete addresses. -/
theorem foreign_ip_spec_witness :
    (mkConn "TCP" "x" "93.184.216.34:443" "ESTABLISHED" "").foreign_ip = "93.184.216.34" ∧
    (mkConn "TCP" "x" "[2a00:1450::5]:443" "ESTABLISHED" "").foreign_ip = "2a00:1450::5" :=
  ⟨foreign_ip_spec.1 _ ['9', '3', '.', '1', '8', '4', '.', '2', '1', '6', '.', '3', '4']
      ['4', '4', '3'] (by decide) (by decide) (by decide),
   foreign_ip_spec.2.1 _ ['2', 'a', '0', '0', ':', '1', '4', '5', '0', ':', ':', '5']
      ['4', '4', '3'] (by decide) (by decide)⟩

/-! ## C10: totality of the static range tier -/

/-- C10: `SimpleGeoDatabase.lookup` is total over arbitrary text — any
input that does not parse as a strict IPv4 dotted quad (IPv6 literals,
malformed text) yields `("", "Unknown", "")` instead of an exception,
and any parseable address yields the attribution of the first containing
interval, or `("", "Unknown", "")` when no interval contains it. -/
theorem simple_geo_lookup_total (s : String) :
    (parseIPv4 s = none → SimpleGeoDatabase.lookup s = ("", "Unknown", "")) ∧
    (∀ n, parseIPv4 s = some n →
      (∀ r, ipRanges.find? (fun rr => rr.containsIp n) = some r →
        SimpleGeoDatabase.lookup s = (r.city, r.country, r.org)) ∧
      (ipRanges.find? (fun rr => rr.containsIp n) = none →
        SimpleGeoDatabase.lookup s = ("", "Unknown", ""))) := by
  unfold SimpleGeoDatabase.lookup
  refine ⟨fun h => ?_, fun n h => ⟨fun r hr => ?_, fun hr => ?_⟩⟩
  · rw [h]
  · rw [h]
    dsimp only
    rw [hr]
  · rw [h]
    dsimp only
    rw [hr]

/-- Closed instance of `simple_geo_lookup_total`: an IPv6 literal falls
through to the unknown triple, and `8.8.8.8` hits Google's range. -/
theorem simple_geo_lookup_total_witness :
    SimpleGeoDatabase.lookup "::1" = ("", "Unknown", "") ∧
    SimpleGeoDatabase.lookup "8.8.8.8" = ("Mountain View", "United States", "Google LLC") :=
  ⟨(simple_geo_lookup_total "::1").1 (by decide),
   ((simple_geo_lookup_total "8.8.8.8").2 134744072 (by decide)).1
     ⟨"8.8.8.0", "8.8.8.255", "United States", "Mountain View", "Google LLC"⟩ (by decide)⟩

/-! ## C2: the Unix netstat data-line bug -/

/-- C2 (code bug): the line
`tcp        0      0 10.0.0.5:44321 142.250.70.14:443 ESTABLISHED`
is a genuine legacy-netstat data row — non-empty, not one of netstat's
header lines (`Active ...` / `Proto ...`), beginning with the recognized
protocol token `tcp`, six columns, and it passes both the listening and
the noise filter — yet `_get_unix_netstat_connections` produces no record
from it: its header filter `line.startswith(('Active', 'Proto', 'tcp',
'udp'))` discards every line beginning with lower-case `tcp`/`udp`,
i.e. every standard Linux/macOS data row. -/
theorem unix_netstat_drops_lowercase_data_lines :
    (pyStrip "tcp        0      0 10.0.0.5:44321 142.250.70.14:443 ESTABLISHED" ≠ "" ∧
     pyStartsWith "tcp        0      0 10.0.0.5:44321 142.250.70.14:443 ESTABLISHED"
       "Active" = false ∧
     pyStartsWith "tcp        0      0 10.0.0.5:44321 142.250.70.14:443 ESTABLISHED"
       "Proto" = false ∧
     pyLower ((pySplit
       "tcp        0      0 10.0.0.5:44321 142.250.70.14:443 ESTABLISHED").headD "") =
       ConnectionType.TCP.value ∧
     6 ≤ (pySplit
       "tcp        0      0 10.0.0.5:44321 142.250.70.14:443 ESTABLISHED").length) ∧
    parseUnixNetstatLine ConnectionType.TCP
      "tcp        0      0 10.0.0.5:44321 142.250.70.14:443 ESTABLISHED" = none ∧
    getUnixNetstatConnections ConnectionType.TCP true
      ["tcp        0      0 10.0.0.5:44321 142.250.70.14:443 ESTABLISHED"] = [] ∧
    (mkConn "TCP" "10.0.0.5:44321" "142.250.70.14:443" "ESTABLISHED" "").is_listening
      = false ∧
    (mkConn "TCP" "10.0.0.5:44321" "142.250.70.14:443" "ESTABLISHED" "").is_uninteresting
      = false := by
  decide

/-! ## C8: offline fallback of the home country detector -/

/-- C8: when no networked method succeeds — every public-IP echo service
fails (`_get_public_ip` returns `None`) and every direct country service
fails (`_get_country_online` returns `None`) — `detect_country` returns
the configured default country without raising, recording the detection
method as `"default"`. -/
theorem detect_country_offline_fallback (cd : CountryDetector)
    (geoipLookup : Option (String → String × String × String))
    (h : cd.detectedCountry.getD "" = "") :
    cd.detect_country geoipLookup none none =
      (cd.defaultCountry,
       { cd with detectedCountry := some cd.defaultCountry,
                 detectionMethod := some "default" }) := by
  unfold CountryDetector.detect_country
  rw [if_neg (by simp [h])]

/-- Closed instance of `detect_country_offline_fallback` on a fresh
detector. -/
theorem detect_country_offline_fallback_witness :
    CountryDetector.detect_country freshDetector none none none =
      ("United States", ⟨"United States", some "United States", none, some "default"⟩) :=
  detect_country_offline_fallback freshDetector none (by decide)

/-! ## C1: the private-address short-circuit -/

/-- C1 counterexample: `127.0.0.1` is deemed non-public by the
classifier (`_is_private_ip` returns `True` for 127/8), yet `lookup`
returns `("", "", "")` for it — not `("", "Private", "Local Network")` —
because the literal strings `0.0.0.0`, `127.0.0.1`, `::1`, `*` and
`0.0.0.0:0` hit the special-address check before the classifier runs. -/
theorem lookup_loopback_literal_cex :
    GeoIPLookup.is_private_ip "127.0.0.1" = true ∧
    (GeoIPLookup.lookup envLocalOnly 0 emptyGeoState "127.0.0.1").1 ≠
      ("", "Private", "Local Network") ∧
    (GeoIPLookup.lookup envLocalOnly 0 emptyGeoState "127.0.0.1").1 = ("", "", "") := by
  decide

/-- C1 (amended): for every address the classifier deems non-public,
`lookup` consults no local-database, static-range or networked tier and
leaves the state unchanged; it returns exactly
`("", "Private", "Local Network")` unless the address is one of the five
special literals (among the classifier-private addresses: `127.0.0.1`
and `::1`), for which it returns `("", "", "")` — likewise without
consulting any tier. -/
theorem lookup_private_short_circuit :
    (∀ (env : GeoEnv) (now : Rat) (st : GeoState) (ip : String),
      GeoIPLookup.is_private_ip ip = true → ip ∉ specialIps →
      GeoIPLookup.lookup env now st ip = (("", "Private", "Local Network"), st, [])) ∧
    (∀ (env : GeoEnv) (now : Rat) (st : GeoState) (ip : String),
      ip ∈ specialIps →
      GeoIPLookup.lookup env now st ip = (("", "", ""), st, [])) := by
  constructor
  · intro env now st ip hpriv hspec
    have hne : ip ≠ "" := by
      intro h
      rw [h] at hpriv
      exact absurd hpriv (by decide)
    unfold GeoIPLookup.lookup
    rw [if_neg (fun hh => hh.elim hne hspec), if_pos hpriv]
  · intro env now st ip hspec
    unfold GeoIPLookup.lookup
    rw [if_pos (Or.inr hspec)]

/-- Closed instance of `lookup_private_short_circuit`: an RFC1918
address short-circuits to the private attribution, and the special
literal `::1` to the empty triple. -/
theorem lookup_private_short_circuit_witness :
    GeoIPLookup.lookup envLocalOnly 0 emptyGeoState "10.0.0.1" =
      (("", "Private", "Local Network"), emptyGeoState, []) ∧
    GeoIPLookup.lookup envLocalOnly 0 emptyGeoState "::1" =
      (("", "", ""), emptyGeoState, []) :=
  ⟨lookup_private_short_circuit.1 envLocalOnly 0 emptyGeoState "10.0.0.1"
      (by decide) (by decide),
   lookup_private_short_circuit.2 envLocalOnly 0 emptyGeoState "::1" (by decide)⟩

/-! ## Structural lemmas about the tier chain -/

theorem online_not_mem_mmConsulted (env : GeoEnv) :
    Tier.online ∉ (if env.maxmind.isSome then [Tier.maxmind] else []) := by
  cases h : env.maxmind.isSome <;> simp

theorem online_not_mem_consultedLocal (env : GeoEnv) :
    Tier.online ∉ consultedLocal env := by
  unfold consultedLocal
  cases h1 : env.maxmind.isSome <;> cases h2 : env.simpleDb.isSome <;> simp

theorem mmTry_eq_some (env : GeoEnv) (ip : String) (r : String × String × String)
    (h : mmTry env ip = some r) :
    ∃ f, env.maxmind = some f ∧ f ip = some r ∧ r.2.1 ≠ "" := by
  unfold mmTry at h
  split at h
  · exact absurd h (by simp)
  · rename_i f hmm
    split at h
    · exact absurd h (by simp)
    · rename_i city country asn hf
      split at h
      · exact absurd h (by simp)
      · rename_i hc
        obtain rfl := Option.some.inj h
        exact ⟨f, hmm, hf, hc⟩

theorem sdTry_eq_some (env : GeoEnv) (ip : String) (r : String × String × String)
    (h : sdTry env ip = some r) :
    r.2.1 ≠ "" ∧ r.2.1 ≠ "Unknown" := by
  unfold sdTry at h
  split at h
  · exact absurd h (by simp)
  · rename_i f hsd
    split at h
    · exact absurd h (by simp)
    · rename_i city country asn hf
      split at h
      · exact absurd h (by simp)
      · rename_i hc
        obtain rfl := Option.some.inj h
        exact ⟨fun hh => hc (Or.inl hh), fun hh => hc (Or.inr hh)⟩

/-- Case analysis on what one `lookup` call does to the two caches:
either it leaves both unchanged, or it writes the returned triple —
timestamped with the call time — under the looked-up key, with the
address established as non-special and non-private, and the written
country either vouched for by the MaxMind oracle or different from the
`"Unknown"` sentinel. -/
theorem lookup_state_cases (env : GeoEnv) (now : Rat) (st : GeoState) (ip : String)
    (res : String × String × String) (st1 : GeoState) (ts : List Tier)
    (hr : GeoIPLookup.lookup env now st ip = (res, st1, ts)) :
    (st1.persistentCache = st.persistentCache ∧ st1.onlineCache = st.onlineCache) ∨
    (st1.persistentCache = updateAssoc st.persistentCache ip ⟨res.1, res.2.1, res.2.2, now⟩ ∧
     st1.onlineCache = updateAssoc st.onlineCache ip res ∧
     ¬(ip = "" ∨ ip ∈ specialIps) ∧ GeoIPLookup.is_private_ip ip = false ∧
     ((∃ f, env.maxmind = some f ∧ f ip = some res ∧ res.2.1 ≠ "") ∨
       res.2.1 ≠ "Unknown")) := by
  unfold GeoIPLookup.lookup at hr
  split at hr
  · simp only [Prod.mk.injEq] at hr
    obtain ⟨-, rfl, -⟩ := hr
    exact Or.inl ⟨rfl, rfl⟩
  · rename_i hns
    split at hr
    · simp only [Prod.mk.injEq] at hr
      obtain ⟨-, rfl, -⟩ := hr
      exact Or.inl ⟨rfl, rfl⟩
    · rename_i hnp
      have hnp' : GeoIPLookup.is_private_ip ip = false := by
        revert hnp
        cases GeoIPLookup.is_private_ip ip <;> simp
      split at hr
      · simp only [Prod.mk.injEq] at hr
        obtain ⟨-, rfl, -⟩ := hr
        exact Or.inl ⟨rfl, rfl⟩
      · rename_i hpc
        split at hr
        · simp only [Prod.mk.injEq] at hr
          obtain ⟨-, rfl, -⟩ := hr
          exact Or.inl ⟨rfl, rfl⟩
        · rename_i hoc
          unfold geoLookupTiers at hr
          split at hr
          · rename_i r hmm
            simp only [Prod.mk.injEq] at hr
            obtain ⟨rfl, rfl, -⟩ := hr
            obtain ⟨f, hf1, hf2, hf3⟩ := mmTry_eq_some env ip _ hmm
            exact Or.inr ⟨rfl, rfl, hns, hnp', Or.inl ⟨f, hf1, hf2, hf3⟩⟩
          · rename_i hmm
            split at hr
            · rename_i r hsd
              simp only [Prod.mk.injEq] at hr
              obtain ⟨rfl, rfl, -⟩ := hr
              exact Or.inr ⟨rfl, rfl, hns, hnp', Or.inr (sdTry_eq_some env ip _ hsd).2⟩
            · rename_i hsd
              split at hr
              · split at hr
                · split at hr
                  · simp only [Prod.mk.injEq] at hr
                    obtain ⟨-, rfl, -⟩ := hr
                    exact Or.inl ⟨rfl, rfl⟩
                  · unfold onlineTier at hr
                    split at hr
                    · simp only [Prod.mk.injEq] at hr
                      obtain ⟨-, rfl, -⟩ := hr
                      exact Or.inl ⟨rfl, rfl⟩
                    · rename_i hnu
                      simp only [Prod.mk.injEq] at hr
                      obtain ⟨rfl, rfl, -⟩ := hr
                      exact Or.inr ⟨rfl, rfl, hns, hnp', Or.inr hnu⟩
                · unfold onlineTier at hr
                  split at hr
                  · simp only [Prod.mk.injEq] at hr
                    obtain ⟨-, rfl, -⟩ := hr
                    exact Or.inl ⟨rfl, rfl⟩
                  · rename_i hnu
                    simp only [Prod.mk.injEq] at hr
                    obtain ⟨rfl, rfl, -⟩ := hr
                    exact Or.inr ⟨rfl, rfl, hns, hnp', Or.inr hnu⟩
              · simp only [Prod.mk.injEq] at hr
                obtain ⟨-, rfl, -⟩ := hr
                exact Or.inl ⟨rfl, rfl⟩

/-- When the special, private and cache checks all decline, `lookup` is
the tier chain. -/
theorem lookup_reaches_tiers (env : GeoEnv) (now : Rat) (st : GeoState) (ip : String)
    (hns : ¬(ip = "" ∨ ip ∈ specialIps)) (hnp : GeoIPLookup.is_private_ip ip = false)
    (hpc : lookupAssoc st.persistentCache ip = none)
    (hoc : lookupAssoc st.onlineCache ip = none) :
    GeoIPLookup.lookup env now st ip = geoLookupTiers env now st ip := by
  unfold GeoIPLookup.lookup
  rw [if_neg hns, if_neg (by simp [hnp]), hpc]
  dsimp only
  rw [hoc]

/-- When both local tiers decline and the online tier is disabled,
rate-limited or answers `"Unknown"`, the tier chain returns the unknown
triple and leaves both caches unchanged. -/
theorem geoLookupTiers_decline (env : GeoEnv) (now : Rat) (st : GeoState) (ip : String)
    (hmm : mmTry env ip = none) (hsd : sdTry env ip = none)
    (honl : env.onlineEnabled = true → (env.onlineLookup ip).2.1 = "Unknown") :
    (geoLookupTiers env now st ip).1 = ("", "Unknown", "") ∧
    (geoLookupTiers env now st ip).2.1.persistentCache = st.persistentCache ∧
    (geoLookupTiers env now st ip).2.1.onlineCache = st.onlineCache := by
  unfold geoLookupTiers
  rw [hmm, hsd]
  dsimp only
  by_cases hen : env.onlineEnabled = true
  · rw [if_pos hen]
    rcases hl : lookupAssoc st.lastOnlineLookup ip with _ | last
    · dsimp only
      unfold onlineTier
      rw [if_pos (honl hen)]
      exact ⟨rfl, rfl, rfl⟩
    · dsimp only
      by_cases hrate : now - last < env.onlineDelay
      · rw [if_pos hrate]
        exact ⟨rfl, rfl, rfl⟩
      · rw [if_neg hrate]
        unfold onlineTier
        rw [if_pos (honl hen)]
        exact ⟨rfl, rfl, rfl⟩
  · rw [if_neg hen]
    exact ⟨rfl, rfl, rfl⟩

/-- A `lookup` call that consulted the online tier and came back with
country `"Unknown"` pins down the whole run: the address passed the
special/private checks, missed both caches, both local tiers declined,
the online tier was enabled and not rate-limited, and the only state
change is the recorded attempt time. -/
theorem lookup_online_unknown (env : GeoEnv) (now : Rat) (st : GeoState) (ip : String)
    (res : String × String × String) (st1 : GeoState) (ts : List Tier)
    (hr : GeoIPLookup.lookup env now st ip = (res, st1, ts))
    (honline : Tier.online ∈ ts) (hunk : res.2.1 = "Unknown") :
    ¬(ip = "" ∨ ip ∈ specialIps) ∧ GeoIPLookup.is_private_ip ip = false ∧
    lookupAssoc st.persistentCache ip = none ∧ lookupAssoc st.onlineCache ip = none ∧
    mmTry env ip = none ∧ sdTry env ip = none ∧ env.onlineEnabled = true ∧
    res = ("", "Unknown", "") ∧
    st1 = { st with lastOnlineLookup := updateAssoc st.lastOnlineLookup ip now } := by
  unfold GeoIPLookup.lookup at hr
  split at hr
  · simp only [Prod.mk.injEq] at hr
    obtain ⟨-, -, rfl⟩ := hr
    exact absurd honline (by simp)
  · rename_i hns
    split at hr
    · simp only [Prod.mk.injEq] at hr
      obtain ⟨-, -, rfl⟩ := hr
      exact absurd honline (by simp)
    · rename_i hnp
      have hnp' : GeoIPLookup.is_private_ip ip = false := by
        revert hnp
        cases GeoIPLookup.is_private_ip ip <;> simp
      split at hr
      · simp only [Prod.mk.injEq] at hr
        obtain ⟨-, -, rfl⟩ := hr
        exact absurd honline (by simp)
      · rename_i hpc
        split at hr
        · simp only [Prod.mk.injEq] at hr
          obtain ⟨-, -, rfl⟩ := hr
          exact absurd honline (by simp)
        · rename_i hoc
          unfold geoLookupTiers at hr
          split at hr
          · simp only [Prod.mk.injEq] at hr
            obtain ⟨-, -, rfl⟩ := hr
            exact absurd honline (online_not_mem_mmConsulted env)
          · rename_i hmm
            split at hr
            · simp only [Prod.mk.injEq] at hr
              obtain ⟨-, -, rfl⟩ := hr
              exact absurd honline (online_not_mem_consultedLocal env)
            · rename_i hsd
              split at hr
              · rename_i hen
                split at hr
                · rename_i last hlast
                  split at hr
                  · simp only [Prod.mk.injEq] at hr
                    obtain ⟨-, -, rfl⟩ := hr
                    exact absurd honline (online_not_mem_consultedLocal env)
                  · unfold onlineTier at hr
                    split at hr
                    · simp only [Prod.mk.injEq] at hr
                      obtain ⟨rfl, rfl, -⟩ := hr
                      exact ⟨hns, hnp', hpc, hoc, hmm, hsd, hen, rfl, rfl⟩
                    · rename_i hnu
                      simp only [Prod.mk.injEq] at hr
                      obtain ⟨rfl, -, -⟩ := hr
                      exact absurd hunk hnu
                · unfold onlineTier at hr
                  split at hr
                  · simp only [Prod.mk.injEq] at hr
                    obtain ⟨rfl, rfl, -⟩ := hr
                    exact ⟨hns, hnp', hpc, hoc, hmm, hsd, hen, rfl, rfl⟩
                  · rename_i hnu
                    simp only [Prod.mk.injEq] at hr
                    obtain ⟨rfl, -, -⟩ := hr
                    exact absurd hunk hnu
              · simp only [Prod.mk.injEq] at hr
                obtain ⟨-, -, rfl⟩ := hr
                exact absurd honline (online_not_mem_consultedLocal env)

/-! ## C4: idempotent, memoized resolution -/

/-- C4: if a `lookup` call resolves an address and writes it to the
cache (the persistent cache changed), then any second `lookup` of the
same address in the same run — whatever the wall-clock time and even
under changed tier oracles — returns the identical triple, leaves the
state untouched, and consults no local-database, static-range or
networked tier (the consulted-tier trace of the second call is empty:
only a cache read happens). -/
theorem lookup_memoized (env env2 : GeoEnv) (now now2 : Rat) (st : GeoState) (ip : String)
    (res : String × String × String) (st1 : GeoState) (ts : List Tier)
    (hr : GeoIPLookup.lookup env now st ip = (res, st1, ts))
    (hwrote : st1.persistentCache ≠ st.persistentCache) :
    GeoIPLookup.lookup env2 now2 st1 ip = (res, st1, []) := by
  rcases lookup_state_cases env now st ip res st1 ts hr with ⟨hp, -⟩ | ⟨hp, -, hns, hnp, -⟩
  · exact absurd hp hwrote
  · have hhit : lookupAssoc st1.persistentCache ip =
        some ⟨res.1, res.2.1, res.2.2, now⟩ := by
      rw [hp, lookupAssoc_updateAssoc_self]
    unfold GeoIPLookup.lookup
    rw [if_neg hns, if_neg (by simp [hnp]), hhit]

/-- Closed instance of `lookup_memoized`: a first call resolves
`8.8.8.8` through the MaxMind tier and caches it; the second call
returns the same triple from the cache with an empty tier trace. -/
theorem lookup_memoized_witness :
    GeoIPLookup.lookup envMaxmindOnly 1
      ⟨[("8.8.8.8", ⟨"Mountain View", "United States", "Google LLC", 0⟩)],
       [("8.8.8.8", ("Mountain View", "United States", "Google LLC"))], []⟩ "8.8.8.8" =
      (("Mountain View", "United States", "Google LLC"),
       ⟨[("8.8.8.8", ⟨"Mountain View", "United States", "Google LLC", 0⟩)],
        [("8.8.8.8", ("Mountain View", "United States", "Google LLC"))], []⟩, []) :=
  lookup_memoized envMaxmindOnly envMaxmindOnly 0 1 emptyGeoState "8.8.8.8"
    ("Mountain View", "United States", "Google LLC")
    ⟨[("8.8.8.8", ⟨"Mountain View", "United States", "Google LLC", 0⟩)],
     [("8.8.8.8", ("Mountain View", "United States", "Google LLC"))], []⟩
    [Tier.maxmind] (by decide) (by decide)

/-! ## C7: rate limiting of the networked tier -/

/-- C7: when a `lookup` call reached the networked tier for an address
(it consulted `Tier.online`) and obtained the unknown result, a second
call for the same address issued before `online_lookup_delay` has
elapsed returns `("", "Unknown", "")`, changes nothing, and does not
consult the online tier — no network request is made. -/
theorem online_rate_limited (env : GeoEnv) (now now2 : Rat) (st : GeoState) (ip : String)
    (res : String × String × String) (st1 : GeoState) (ts : List Tier)
    (hr : GeoIPLookup.lookup env now st ip = (res, st1, ts))
    (honline : Tier.online ∈ ts) (hunk : res.2.1 = "Unknown")
    (hwindow : now2 - now < env.onlineDelay) :
    GeoIPLookup.lookup env now2 st1 ip = (("", "Unknown", ""), st1, consultedLocal env) ∧
    Tier.online ∉ consultedLocal env := by
  obtain ⟨hns, hnp, hpc, hoc, hmm, hsd, hen, -, hst1⟩ :=
    lookup_online_unknown env now st ip res st1 ts hr honline hunk
  subst hst1
  refine ⟨?_, online_not_mem_consultedLocal env⟩
  rw [lookup_reaches_tiers env now2
    { st with lastOnlineLookup := updateAssoc st.lastOnlineLookup ip now } ip
    hns hnp hpc hoc]
  unfold geoLookupTiers
  rw [hmm, hsd]
  dsimp only
  rw [if_pos hen]
  have hlast : lookupAssoc
      ({ st with lastOnlineLookup := updateAssoc st.lastOnlineLookup ip now } :
        GeoState).lastOnlineLookup ip = some now :=
    lookupAssoc_updateAssoc_self st.lastOnlineLookup ip now
  rw [hlast]
  dsimp only
  rw [if_pos hwindow]

/-- Closed instance of `online_rate_limited`: a first online attempt at
time 0 declines; an immediate retry (still inside the 1-second spacing)
is rate-limited away. -/
theorem online_rate_limited_witness :
    GeoIPLookup.lookup envOnlineUnknown 0
      ⟨[], [], [("203.0.113.5", 0)]⟩ "203.0.113.5" =
      (("", "Unknown", ""), ⟨[], [], [("203.0.113.5", 0)]⟩,
       consultedLocal envOnlineUnknown) ∧
    Tier.online ∉ consultedLocal envOnlineUnknown :=
  online_rate_limited envOnlineUnknown 0 0 emptyGeoState "203.0.113.5"
    ("", "Unknown", "") ⟨[], [], [("203.0.113.5", 0)]⟩ [Tier.online]
    (by decide) (by decide) (by decide) (by simp [envOnlineUnknown])

/-! ## C3: what the cache may contain -/

/-- C3 counterexample: with the online tier reachable and the services
answering a city but an empty country (an ipinfo.io success response
without a country field), `lookup` caches — in both the persistent and
the runtime cache — an entry whose country is the empty string, and
returns that triple instead of `("", "Unknown", "")`: the networked tier
accepts any result whose country merely differs from `"Unknown"`, so the
cache is not restricted to non-empty, non-sentinel countries. -/
theorem cache_empty_country_cex :
    lookupAssoc emptyGeoState.persistentCache "203.0.113.5" = none ∧
    (GeoIPLookup.lookup envOnlineEmptyCountry 0 emptyGeoState "203.0.113.5").1 =
      ("Nowhere", "", "") ∧
    lookupAssoc (GeoIPLookup.lookup envOnlineEmptyCountry 0 emptyGeoState
      "203.0.113.5").2.1.persistentCache "203.0.113.5" = some ⟨"Nowhere", "", "", 0⟩ ∧
    lookupAssoc (GeoIPLookup.lookup envOnlineEmptyCountry 0 emptyGeoState
      "203.0.113.5").2.1.onlineCache "203.0.113.5" = some ("Nowhere", "", "") := by
  decide

/-- C3 (amended): every entry `lookup` writes to either cache is written
under the looked-up address, timestamped with the call time, and — as
long as the MaxMind databases never report the literal country
`"Unknown"` — has a country different from `"Unknown"`; an empty or
otherwise sentinel country can however be cached when the networked tier
returns one.  When every tier declines, `lookup` returns
`("", "Unknown", "")` and leaves both caches unchanged. -/
theorem cache_positive_amended :
    (∀ (env : GeoEnv) (now : Rat) (st : GeoState) (ip k : String),
      (∀ (f : String → Option (String × String × String)) (a : String)
        (t : String × String × String),
        env.maxmind = some f → f a = some t → t.2.1 ≠ "Unknown") →
      (∀ e : CacheEntry,
        lookupAssoc (GeoIPLookup.lookup env now st ip).2.1.persistentCache k = some e →
        lookupAssoc st.persistentCache k = some e ∨
          (k = ip ∧ e.country ≠ "Unknown" ∧ e.timestamp = now)) ∧
      (∀ t : String × String × String,
        lookupAssoc (GeoIPLookup.lookup env now st ip).2.1.onlineCache k = some t →
        lookupAssoc st.onlineCache k = some t ∨ (k = ip ∧ t.2.1 ≠ "Unknown"))) ∧
    (∀ (env : GeoEnv) (now : Rat) (st : GeoState) (ip : String),
      ¬(ip = "" ∨ ip ∈ specialIps) → GeoIPLookup.is_private_ip ip = false →
      lookupAssoc st.persistentCache ip = none → lookupAssoc st.onlineCache ip = none →
      mmTry env ip = none → sdTry env ip = none →
      (env.onlineEnabled = true → (env.onlineLookup ip).2.1 = "Unknown") →
      (GeoIPLookup.lookup env now st ip).1 = ("", "Unknown", "") ∧
      (GeoIPLookup.lookup env now st ip).2.1.persistentCache = st.persistentCache ∧
      (GeoIPLookup.lookup env now st ip).2.1.onlineCache = st.onlineCache) := by
  constructor
  · intro env now st ip k hOracle
    rcases hE : GeoIPLookup.lookup env now st ip with ⟨res, st1, ts⟩
    dsimp only
    rcases lookup_state_cases env now st ip res st1 ts hE with ⟨hp, ho⟩ | ⟨hp, ho, -, -, hc⟩
    · exact ⟨fun e he => Or.inl (hp ▸ he), fun t ht => Or.inl (ho ▸ ht)⟩
    · have hcountry : res.2.1 ≠ "Unknown" := by
        rcases hc with ⟨f, hf1, hf2, -⟩ | hne
        · exact hOracle f ip res hf1 hf2
        · exact hne
      constructor
      · intro e he
        rw [hp, lookupAssoc_updateAssoc] at he
        by_cases hk : k = ip
        · rw [if_pos hk] at he
          obtain rfl := Option.some.inj he
          exact Or.inr ⟨hk, hcountry, rfl⟩
        · rw [if_neg hk] at he
          exact Or.inl he
      · intro t ht
        rw [ho, lookupAssoc_updateAssoc] at ht
        by_cases hk : k = ip
        · rw [if_pos hk] at ht
          obtain rfl := Option.some.inj ht
          exact Or.inr ⟨hk, hcountry⟩
        · rw [if_neg hk] at ht
          exact Or.inl ht
  · intro env now st ip hns hnp hpc hoc hmm hsd honl
    rw [lookup_reaches_tiers env now st ip hns hnp hpc hoc]
    exact geoLookupTiers_decline env now st ip hmm hsd honl

/-- Closed instance of `cache_positive_amended`: the entry written for
`8.8.8.8` by the MaxMind tier satisfies the cache invariant, and with
every tier declining the lookup of a fresh public address returns the
unknown triple. -/
theorem cache_positive_amended_witness :
    (lookupAssoc emptyGeoState.persistentCache "8.8.8.8" =
        some ⟨"Mountain View", "United States", "Google LLC", 0⟩ ∨
      (("8.8.8.8" : String) = "8.8.8.8" ∧
        (⟨"Mountain View", "United States", "Google LLC", 0⟩ : CacheEntry).country ≠ "Unknown" ∧
        (⟨"Mountain View", "United States", "Google LLC", 0⟩ : CacheEntry).timestamp = 0)) ∧
    (GeoIPLookup.lookup envLocalOnly 0 emptyGeoState "203.0.113.9").1 =
      ("", "Unknown", "") :=
  ⟨(cache_positive_amended.1 envMaxmindOnly 0 emptyGeoState "8.8.8.8" "8.8.8.8"
      (fun f a t hf hfa => by
        obtain rfl := Option.some.inj hf
        obtain rfl := Option.some.inj hfa
        decide)).1
    ⟨"Mountain View", "United States", "Google LLC", 0⟩ (by decide),
   ((cache_positive_amended.2 envLocalOnly 0 emptyGeoState "203.0.113.9"
      (by decide) (by decide) (by decide) (by decide) (by decide) (by decide)
      (fun h => absurd h (by decide))).1)⟩
